import Mathlib

/-!
Verification development for the alert-service repository.

The Go sources are shallowly embedded:

* `float64` values (confidence, score, indicator values) are modelled by `ℚ`.
  The printf-style formatters are modelled as computable functions on the
  numerator/denominator representation; decimal rounding of an exact half is
  modelled as round-half-up (Go's printf rounds the underlying binary double),
  a difference that is unobservable in every property checked here.
* Go strings are modelled by Lean `String`; byte-level length and slicing of
  the ASCII strings involved coincide with character-level length and slicing.
* `time.Time` is modelled by `GoTime`, carrying the Unix-nanosecond instant
  (used by `time.Since`), the calendar fields read by `Format` and `Hour()`,
  and the zone abbreviation.
* The Go map `map[string]time.Time` is modelled by an association list with
  the usual lookup/overwrite operations.
* Functions that can panic (`strings.Repeat` with a negative count) return
  `Option`, `none` marking the panic.
* The Telegram client's `SendMessage` is modelled by a parameter
  `send : String → Except String Unit`; the `interface{}` event argument of
  the handlers by the closed sum `EventValue` of the two event shapes the
  program constructs.
-/

/-! ### Signal constants (internal/models) -/

def SignalBuy : String := "BUY"

def SignalSell : String := "SELL"

def SignalWatch : String := "WATCH"

/-! ### Time model -/

/-- Model of a `time.Time` wall-clock instant: the Unix-nanosecond value used
by `time.Since`, the calendar fields used by `Format` and `Hour()`, and the
zone abbreviation. -/
structure GoTime where
  unixNano : Int
  year : Nat
  month : Nat
  day : Nat
  hour : Nat
  minute : Nat
  second : Nat
  zone : String
deriving DecidableEq

/-- Zero-pad a number to two digits, as Go's `Format` verbs `01`, `02`, `15`, `04`, `05` do. -/
def pad2 (n : Nat) : String :=
  if n < 10 then "0" ++ toString n else toString n

/-- Zero-pad a number to four digits, as Go's `Format` verb `2006` does. -/
def pad4 (n : Nat) : String :=
  if n < 10 then "000" ++ toString n
  else if n < 100 then "00" ++ toString n
  else if n < 1000 then "0" ++ toString n
  else toString n

/-- Model of `t.Format("2006-01-02 15:04:05 MST")`. -/
def formatTimeFull (t : GoTime) : String :=
  pad4 t.year ++ "-" ++ pad2 t.month ++ "-" ++ pad2 t.day ++ " "
    ++ pad2 t.hour ++ ":" ++ pad2 t.minute ++ ":" ++ pad2 t.second ++ " " ++ t.zone

/-- Model of `t.Format("2006-01-02 15:04")`. -/
def formatTimeShort (t : GoTime) : String :=
  pad4 t.year ++ "-" ++ pad2 t.month ++ "-" ++ pad2 t.day ++ " "
    ++ pad2 t.hour ++ ":" ++ pad2 t.minute

/-! ### printf-style numeric formatting -/

/-- Go's conversion `int(c * 10)` (truncation toward zero) applied to a
`float64` modelled as `ℚ`, computed on the reduced fraction so that it
evaluates by kernel reduction. -/
def goTrunc10 (c : ℚ) : Int :=
  Int.tdiv (10 * c.num) (c.den : Int)

/-- Model of `fmt.Sprintf("%.0f", c*100)`: the percentage rounded to an
integer and printed without decimals.  `⌊100c + 1/2⌋` computed on the reduced
fraction. -/
def fmtConfidencePct (c : ℚ) : String :=
  toString (Int.fdiv (200 * c.num + (c.den : Int)) (2 * (c.den : Int)))

/-- Model of `fmt.Sprintf("%.2f", x)`: fixed two-decimal rendering,
`⌊100x + 1/2⌋` hundredths computed on the reduced fraction. -/
def fmtF2 (x : ℚ) : String :=
  let n : Int := Int.fdiv (200 * x.num + (x.den : Int)) (2 * (x.den : Int))
  let m : Nat := n.natAbs
  (if n < 0 then "-" else "") ++ toString (m / 100) ++ "." ++ pad2 (m % 100)

/-! ### Event models (internal/models/events.go) -/

/-- `models.RuleResult`. -/
structure RuleResult where
  RuleName : String
  Confidence : ℚ
  Reasoning : String
deriving DecidableEq

/-- `models.DecisionData`.  The Go `IndicatorsSnapshot` field is a
`map[string]float64`; it is modelled as an association list recording one
iteration order of that map — two lists that are permutations of each other
with the same distinct keys represent the same Go map.  The `Metadata` field
is never read by the program and is omitted. -/
structure DecisionData where
  Symbol : String
  Signal : String
  Confidence : ℚ
  PrimaryReasoning : String
  RulesTriggered : List RuleResult
  IndicatorsSnapshot : List (String × ℚ)
deriving DecidableEq

/-- `models.DecisionEvent`. -/
structure DecisionEvent where
  EventType : String
  Source : String
  SchemaVersion : String
  Timestamp : GoTime
  Data : DecisionData
deriving DecidableEq

/-- `models.SymbolRanking`. -/
structure SymbolRanking where
  Symbol : String
  Rank : Int
  Score : ℚ
  SignalType : String
  Confidence : ℚ
  Reasoning : String
  RankingFactors : List (String × ℚ)
deriving DecidableEq

/-- `models.RankingData`. -/
structure RankingData where
  SignalType : String
  Criteria : String
  Timestamp : GoTime
  TotalSymbols : Int
  Rankings : List SymbolRanking
deriving DecidableEq

/-- `models.RankingEvent`. -/
structure RankingEvent where
  EventType : String
  Source : String
  SchemaVersion : String
  Timestamp : GoTime
  Data : RankingData
deriving DecidableEq

/-- The dynamic value passed to a handler through the `interface{}` argument;
the program constructs exactly these two shapes. -/
inductive EventValue where
  | decision (d : DecisionEvent)
  | ranking (r : RankingEvent)
deriving DecidableEq

/-! ### Configuration (internal/config) -/

/-- The alert-relevant fields of `config.Config` (the Kafka and Telegram
connection fields play no role in the handler logic). -/
structure Config where
  MinConfidence : ℚ
  AlertOnBuy : Bool
  AlertOnSell : Bool
  AlertOnWatch : Bool
  AlertOnRankings : Bool
  RankingsTopN : Int
  CooldownMinutes : Int
  QuietHoursStart : Int
  QuietHoursEnd : Int
  EnableQuietHours : Bool
deriving DecidableEq

/-! ### Cooldown map (the `cooldowns map[string]time.Time` field) -/

/-- Lookup in the cooldown map, modelling `s.cooldowns[symbol]`. -/
def mapLookup : List (String × GoTime) → String → Option GoTime
  | [], _ => none
  | (k, v) :: rest, s => if k = s then some v else mapLookup rest s

/-- Overwriting insertion, modelling `s.cooldowns[symbol] = time.Now()`. -/
def mapInsert (m : List (String × GoTime)) (s : String) (v : GoTime) :
    List (String × GoTime) :=
  (s, v) :: m.filter (fun p => decide (p.1 ≠ s))

/-! ### AlertService predicates (internal/service/alert_service.go) -/

/-- `shouldAlertForSignal`: the `switch signal` with a fail-closed default. -/
def shouldAlertForSignal (cfg : Config) (signal : String) : Bool :=
  if signal = SignalBuy then cfg.AlertOnBuy
  else if signal = SignalSell then cfg.AlertOnSell
  else if signal = SignalWatch then cfg.AlertOnWatch
  else false

/-- `checkCooldown`: true when no entry exists, otherwise
`time.Since(lastAlert) >= time.Duration(CooldownMinutes) * time.Minute`. -/
def checkCooldown (cfg : Config) (cooldowns : List (String × GoTime))
    (now : GoTime) (symbol : String) : Bool :=
  match mapLookup cooldowns symbol with
  | none => true
  | some lastAlert =>
      decide (now.unixNano - lastAlert.unixNano ≥ cfg.CooldownMinutes * 60 * 1000000000)

/-- `setCooldown`: `s.cooldowns[symbol] = time.Now()`. -/
def setCooldown (cooldowns : List (String × GoTime)) (symbol : String)
    (now : GoTime) : List (String × GoTime) :=
  mapInsert cooldowns symbol now

/-- `isQuietHours`: disabled ⇒ false; overnight window (`start > end`) uses
`hour >= start || hour < end`, same-day window uses
`hour >= start && hour < end`, on `time.Now().Hour()`. -/
def isQuietHours (cfg : Config) (now : GoTime) : Bool :=
  if !cfg.EnableQuietHours then false
  else
    let hour : Int := (now.hour : Int)
    let start := cfg.QuietHoursStart
    let endH := cfg.QuietHoursEnd
    if start > endH then decide (hour ≥ start) || decide (hour < endH)
    else decide (hour ≥ start) && decide (hour < endH)

/-! ### Message rendering -/

/-- `n` concatenated copies of `s`. -/
def repeatString (s : String) : Nat → String
  | 0 => ""
  | n + 1 => s ++ repeatString s n

/-- `strings.Repeat s n` for a Go `int` count: panics (`none`) when the count
is negative. -/
def goRepeat (s : String) (n : Int) : Option String :=
  if n < 0 then none else some (repeatString s n.toNat)

/-- `formatConfidenceBar`: `filled := int(confidence * 10)`,
`empty := 10 - filled`, then two `strings.Repeat` calls; `none` models the
panic when either repeat count is negative. -/
def formatConfidenceBar (confidence : ℚ) : Option String :=
  let filled : Int := goTrunc10 confidence
  let empty : Int := 10 - filled
  match goRepeat "█" filled, goRepeat "░" empty with
  | some a, some b => some (a ++ b)
  | _, _ => none

/-- `formatDecisionMessage`; `none` propagates the `formatConfidenceBar`
panic.  The indicator section iterates the snapshot in the order carried by
the association list (one possible iteration order of the Go map). -/
def formatDecisionMessage (event : DecisionEvent) : Option String :=
  let data := event.Data
  let emoji :=
    if data.Signal = SignalBuy then "🟢"
    else if data.Signal = SignalSell then "🔴"
    else if data.Signal = SignalWatch then "👀"
    else ""
  match formatConfidenceBar data.Confidence with
  | none => none
  | some confidenceBar =>
      some (emoji ++ " <b>" ++ data.Signal ++ " Signal: " ++ data.Symbol ++ "</b>\n\n"
        ++ "📊 Confidence: " ++ fmtConfidencePct data.Confidence ++ "% " ++ confidenceBar ++ "\n\n"
        ++ "💡 <b>Reason:</b>\n" ++ data.PrimaryReasoning ++ "\n\n"
        ++ (if data.RulesTriggered.length > 0 then
              "📋 <b>Rules Triggered:</b>\n"
                ++ String.join (data.RulesTriggered.map (fun rule =>
                      "  • " ++ rule.RuleName ++ " (" ++ fmtConfidencePct rule.Confidence ++ "%)\n"))
                ++ "\n"
            else "")
        ++ (if data.IndicatorsSnapshot.length > 0 then
              "📈 <b>Key Indicators:</b>\n"
                ++ String.join (data.IndicatorsSnapshot.map (fun p =>
                      "  • " ++ p.1 ++ ": " ++ fmtF2 p.2 ++ "\n"))
                ++ "\n"
            else "")
        ++ "🕐 " ++ formatTimeFull event.Timestamp)

/-- Zero value used for the (unreachable) out-of-range index case of the
rankings loop. -/
def defaultSymbolRanking : SymbolRanking :=
  { Symbol := "", Rank := 0, Score := 0, SignalType := "", Confidence := 0
    Reasoning := "", RankingFactors := [] }

/-- `formatRankingMessage`: header, `count := min(RankingsTopN, len)` clamp
written exactly as the Go comparison, the indexed loop with the medal
`switch`, per-entry reasoning truncation at 100 bytes, and the trailing
total-symbols line. -/
def formatRankingMessage (cfg : Config) (event : RankingEvent) : String :=
  let data := event.Data
  let emoji :=
    if data.SignalType = SignalBuy then "🟢"
    else if data.SignalType = SignalSell then "🔴"
    else ""
  let count : Int :=
    if cfg.RankingsTopN > (data.Rankings.length : Int) then (data.Rankings.length : Int)
    else cfg.RankingsTopN
  let body := String.join ((List.range count.toNat).map (fun i =>
    let r := data.Rankings.getD i defaultSymbolRanking
    let medal :=
      if i = 0 then "🥇"
      else if i = 1 then "🥈"
      else if i = 2 then "🥉"
      else toString (i + 1) ++ "."
    medal ++ " <b>" ++ r.Symbol ++ "</b> - Score: " ++ fmtF2 r.Score
      ++ " (" ++ fmtConfidencePct r.Confidence ++ "% confidence)\n"
      ++ (if r.Reasoning ≠ "" then
            "    └ " ++ (if r.Reasoning.length > 100 then r.Reasoning.take 97 ++ "..."
                         else r.Reasoning) ++ "\n"
          else "")
      ++ "\n"))
  emoji ++ " <b>" ++ data.SignalType ++ " Rankings Update</b>\n"
    ++ "📅 " ++ formatTimeShort data.Timestamp ++ "\n\n"
    ++ "<b>Top " ++ toString count ++ " " ++ data.SignalType ++ " Candidates:</b>\n\n"
    ++ body
    ++ "📊 Total symbols analyzed: " ++ toString data.TotalSymbols

/-! ### Handlers -/

instance : DecidableEq (Except String Unit) := fun a b =>
  match a, b with
  | Except.ok (), Except.ok () => isTrue rfl
  | Except.error e, Except.error f =>
      if h : e = f then isTrue (by rw [h]) else isFalse (fun hh => h (by cases hh; rfl))
  | Except.ok _, Except.error _ => isFalse (fun hh => by cases hh)
  | Except.error _, Except.ok _ => isFalse (fun hh => by cases hh)

/-- Observable outcome of one handler call: the returned error value, the
cooldown map afterwards, and the messages handed to the Telegram sink in
order. -/
structure HandlerOutput where
  result : Except String Unit
  cooldowns : List (String × GoTime)
  sent : List String
deriving DecidableEq

/-- `HandleDecisionEvent`.  The four gates in source order with early `nil`
returns, then render → send → `setCooldown` only after a successful send;
`none` models the renderer panic. -/
def HandleDecisionEvent (cfg : Config) (send : String → Except String Unit)
    (now : GoTime) (cooldowns : List (String × GoTime)) (event : EventValue) :
    Option HandlerOutput :=
  match event with
  | EventValue.ranking _ =>
      some { result := Except.error "invalid event type for decision handler"
             cooldowns := cooldowns, sent := [] }
  | EventValue.decision decision =>
      let data := decision.Data
      if !shouldAlertForSignal cfg data.Signal then
        some { result := Except.ok (), cooldowns := cooldowns, sent := [] }
      else if data.Confidence < cfg.MinConfidence then
        some { result := Except.ok (), cooldowns := cooldowns, sent := [] }
      else if !checkCooldown cfg cooldowns now data.Symbol then
        some { result := Except.ok (), cooldowns := cooldowns, sent := [] }
      else if isQuietHours cfg now then
        some { result := Except.ok (), cooldowns := cooldowns, sent := [] }
      else
        match formatDecisionMessage decision with
        | none => none
        | some message =>
            match send message with
            | Except.error e =>
                some { result := Except.error ("failed to send telegram message: " ++ e)
                       cooldowns := cooldowns, sent := [message] }
            | Except.ok _ =>
                some { result := Except.ok ()
                       cooldowns := setCooldown cooldowns data.Symbol now
                       sent := [message] }

/-- `HandleRankingEvent`: the ranking-enabled gate, the quiet-hours gate,
then render and send; the cooldown map is passed through untouched. -/
def HandleRankingEvent (cfg : Config) (send : String → Except String Unit)
    (now : GoTime) (cooldowns : List (String × GoTime)) (event : EventValue) :
    HandlerOutput :=
  match event with
  | EventValue.decision _ =>
      { result := Except.error "invalid event type for ranking handler"
        cooldowns := cooldowns, sent := [] }
  | EventValue.ranking ranking =>
      if !cfg.AlertOnRankings then
        { result := Except.ok (), cooldowns := cooldowns, sent := [] }
      else if isQuietHours cfg now then
        { result := Except.ok (), cooldowns := cooldowns, sent := [] }
      else
        let message := formatRankingMessage cfg ranking
        match send message with
        | Except.error e =>
            { result := Except.error ("failed to send telegram ranking message: " ++ e)
              cooldowns := cooldowns, sent := [message] }
        | Except.ok _ =>
            { result := Except.ok (), cooldowns := cooldowns, sent := [message] }

/-! ### Claim processing (internal/kafka/consumer.go, ConsumeClaim) -/

/-- One delivered Kafka message: its topic and the outcome of
`json.Unmarshal`-ing its value into each of the two event shapes (`none`
models a malformed payload for that shape). -/
structure KMessage where
  topic : String
  valueAsDecision : Option DecisionEvent
  valueAsRanking : Option RankingEvent

/-- The consumer's wiring: the two topic names and the two late-bound
handlers (each may still be `nil`). -/
structure ConsumerHandlers where
  decisionTopic : String
  rankingTopic : String
  decisionHandler : Option (DecisionEvent → Except String Unit)
  rankingHandler : Option (RankingEvent → Except String Unit)

/-- Observable events of the claim-processing loop, tagged with the position
of the message in the delivered sequence: channel delivery, handler
invocation (with the handler's success bit), and `session.MarkMessage`. -/
inductive TraceEv where
  | deliver (i : Nat)
  | dispatch (i : Nat) (ok : Bool)
  | commit (i : Nat)
deriving DecidableEq

/-- `ConsumeClaim`'s message loop over a delivered sequence (the channel
closing ends the loop; the session-cancellation select arm is outside this
per-sequence model).  Each iteration mirrors the Go `switch` on the topic:
a malformed payload is logged, marked, and skipped with `continue` (its own
`MarkMessage`); a handler error is logged and ignored; every other path falls
through to the single `MarkMessage` at the bottom of the loop body. -/
def ConsumeClaim (h : ConsumerHandlers) (i : Nat) : List KMessage → List TraceEv
  | [] => []
  | message :: rest =>
      TraceEv.deliver i ::
        ((if message.topic = h.decisionTopic then
            match h.decisionHandler with
            | some handler =>
                match message.valueAsDecision with
                | none => [TraceEv.commit i]
                | some event =>
                    match handler event with
                    | Except.ok _ => [TraceEv.dispatch i true, TraceEv.commit i]
                    | Except.error _ => [TraceEv.dispatch i false, TraceEv.commit i]
            | none => [TraceEv.commit i]
          else if message.topic = h.rankingTopic then
            match h.rankingHandler with
            | some handler =>
                match message.valueAsRanking with
                | none => [TraceEv.commit i]
                | some event =>
                    match handler event with
                    | Except.ok _ => [TraceEv.dispatch i true, TraceEv.commit i]
                    | Except.error _ => [TraceEv.dispatch i false, TraceEv.commit i]
            | none => [TraceEv.commit i]
          else [TraceEv.commit i])
          ++ ConsumeClaim h (i + 1) rest)

/-! ### Concrete fixtures shared by witnesses and counterexamples -/

/-- A concrete wall-clock instant. -/
def timeW : GoTime :=
  { unixNano := 1700000000000000000, year := 2023, month := 11, day := 14
    hour := 12, minute := 13, second := 20, zone := "UTC" }

/-- The instant `timeW` plus 30 minutes. -/
def timeW30 : GoTime :=
  { unixNano := 1700000000000000000 + 30 * 60 * 1000000000, year := 2023
    month := 11, day := 14, hour := 12, minute := 43, second := 20, zone := "UTC" }

/-- A configuration with the repository's defaults (quiet hours disabled). -/
def cfgW : Config :=
  { MinConfidence := mkRat 3 5, AlertOnBuy := true, AlertOnSell := true
    AlertOnWatch := false, AlertOnRankings := true, RankingsTopN := 5
    CooldownMinutes := 30, QuietHoursStart := 22, QuietHoursEnd := 7
    EnableQuietHours := false }

/-- A BUY decision event with confidence 0.8. -/
def dW : DecisionEvent :=
  { EventType := "trading_decision", Source := "decision-engine", SchemaVersion := "1.0"
    Timestamp := timeW
    Data := { Symbol := "AAPL", Signal := "BUY", Confidence := mkRat 4 5
              PrimaryReasoning := "Strong setup"
              RulesTriggered := [{ RuleName := "RSI_OVERSOLD", Confidence := mkRat 7 10
                                   Reasoning := "RSI below 30" }]
              IndicatorsSnapshot := [("RSI", mkRat 273 10)] } }

/-- A sink that always succeeds. -/
def sendOkW : String → Except String Unit := fun _ => Except.ok ()

/-- A sink that always fails. -/
def sendFailW : String → Except String Unit := fun _ => Except.error "boom"

/-! ### Helper lemmas -/

theorem mapLookup_insert_self (m : List (String × GoTime)) (s : String) (v : GoTime) :
    mapLookup (mapInsert m s v) s = some v := by
  simp [mapInsert, mapLookup]

/-! ### C3: cooldown life-cycle -/

/-- C3: with a positive configured cooldown, `checkCooldown s` is true before
any alert for `s` is recorded; immediately after `recordAlert s` (elapsed
time zero) it is false; and once the elapsed wall-clock time since the
recorded alert is at least the cooldown duration (equality included) it is
true again. -/
theorem checkCooldown_recordAlert_cycle (cfg : Config) (st : List (String × GoTime))
    (s : String) (t now : GoTime) (hpos : 0 < cfg.CooldownMinutes) :
    (mapLookup st s = none → checkCooldown cfg st now s = true)
    ∧ checkCooldown cfg (setCooldown st s t) t s = false
    ∧ (now.unixNano - t.unixNano ≥ cfg.CooldownMinutes * 60 * 1000000000 →
        checkCooldown cfg (setCooldown st s t) now s = true) := by
  refine ⟨fun h => by simp [checkCooldown, h], ?_, fun h => ?_⟩
  · simp only [checkCooldown, setCooldown, mapLookup_insert_self,
      decide_eq_false_iff_not, not_le]
    omega
  · simp only [checkCooldown, setCooldown, mapLookup_insert_self, decide_eq_true_eq]
    omega

theorem checkCooldown_recordAlert_cycle_witness :
    0 < cfgW.CooldownMinutes
    ∧ ((mapLookup [] "AAPL" = none → checkCooldown cfgW [] timeW "AAPL" = true)
       ∧ checkCooldown cfgW (setCooldown [] "AAPL" timeW) timeW "AAPL" = false
       ∧ (timeW30.unixNano - timeW.unixNano ≥ cfgW.CooldownMinutes * 60 * 1000000000 →
           checkCooldown cfgW (setCooldown [] "AAPL" timeW) timeW30 "AAPL" = true)) :=
  ⟨by decide, checkCooldown_recordAlert_cycle cfgW [] "AAPL" timeW timeW30 (by decide)⟩

/-! ### C4: quiet-hours window -/

/-- The witness configuration with overnight quiet hours 22 → 7 enabled. -/
def cfgQuietW : Config :=
  { cfgW with EnableQuietHours := true }

/-- The witness configuration with same-day quiet hours 13 → 14 enabled. -/
def cfgQuiet13W : Config :=
  { cfgW with EnableQuietHours := true, QuietHoursStart := 13, QuietHoursEnd := 14 }

/-- C4: `isQuietHours` is false when disabled; when enabled with
`start > end` (overnight) it holds iff `hour ≥ start ∨ hour < end`; when
enabled with `start ≤ end` (same-day) it holds iff
`hour ≥ start ∧ hour < end`; concretely, with 22 → 7 exactly the hours
22, 23, 0..6 are quiet, and with 13 → 14 only hour 13 is quiet. -/
theorem isQuietHours_spec (cfg : Config) (t : GoTime) :
    (cfg.EnableQuietHours = false → isQuietHours cfg t = false)
    ∧ (cfg.EnableQuietHours = true → cfg.QuietHoursStart > cfg.QuietHoursEnd →
        (isQuietHours cfg t = true ↔
          ((t.hour : Int) ≥ cfg.QuietHoursStart ∨ (t.hour : Int) < cfg.QuietHoursEnd)))
    ∧ (cfg.EnableQuietHours = true → cfg.QuietHoursStart ≤ cfg.QuietHoursEnd →
        (isQuietHours cfg t = true ↔
          ((t.hour : Int) ≥ cfg.QuietHoursStart ∧ (t.hour : Int) < cfg.QuietHoursEnd)))
    ∧ (∀ h : Nat, h < 24 →
        (isQuietHours cfgQuietW { timeW with hour := h } = true ↔ (h = 22 ∨ h = 23 ∨ h < 7)))
    ∧ (∀ h : Nat, h < 24 →
        (isQuietHours cfgQuiet13W { timeW with hour := h } = true ↔ h = 13)) := by
  refine ⟨fun h => by simp [isQuietHours, h], fun he hgt => ?_, fun he hle => ?_,
    by decide, by decide⟩
  · simp [isQuietHours, he, hgt]
  · simp [isQuietHours, he, not_lt.mpr hle]

theorem isQuietHours_spec_witness :
    cfgQuietW.EnableQuietHours = true
    ∧ cfgQuietW.QuietHoursStart > cfgQuietW.QuietHoursEnd
    ∧ (isQuietHours cfgQuietW timeW = true ↔
        ((timeW.hour : Int) ≥ cfgQuietW.QuietHoursStart
          ∨ (timeW.hour : Int) < cfgQuietW.QuietHoursEnd)) :=
  ⟨by decide, by decide, (isQuietHours_spec cfgQuietW timeW).2.1 (by decide) (by decide)⟩

/-! ### C2: decision-gate order and side effects -/

/-- C2: the four gates run in source order with short-circuiting — each
suppression case returns `nil` with the cooldown map unchanged and nothing
sent — and only when all four pass does the handler render, send, and (on a
successful send) record the cooldown for the event's symbol. -/
theorem HandleDecisionEvent_gate_order (cfg : Config) (send : String → Except String Unit)
    (now : GoTime) (st : List (String × GoTime)) (d : DecisionEvent) :
    (shouldAlertForSignal cfg d.Data.Signal = false →
      HandleDecisionEvent cfg send now st (EventValue.decision d)
        = some { result := Except.ok (), cooldowns := st, sent := [] })
    ∧ (shouldAlertForSignal cfg d.Data.Signal = true →
       d.Data.Confidence < cfg.MinConfidence →
      HandleDecisionEvent cfg send now st (EventValue.decision d)
        = some { result := Except.ok (), cooldowns := st, sent := [] })
    ∧ (shouldAlertForSignal cfg d.Data.Signal = true →
       ¬ d.Data.Confidence < cfg.MinConfidence →
       checkCooldown cfg st now d.Data.Symbol = false →
      HandleDecisionEvent cfg send now st (EventValue.decision d)
        = some { result := Except.ok (), cooldowns := st, sent := [] })
    ∧ (shouldAlertForSignal cfg d.Data.Signal = true →
       ¬ d.Data.Confidence < cfg.MinConfidence →
       checkCooldown cfg st now d.Data.Symbol = true →
       isQuietHours cfg now = true →
      HandleDecisionEvent cfg send now st (EventValue.decision d)
        = some { result := Except.ok (), cooldowns := st, sent := [] })
    ∧ (shouldAlertForSignal cfg d.Data.Signal = true →
       ¬ d.Data.Confidence < cfg.MinConfidence →
       checkCooldown cfg st now d.Data.Symbol = true →
       isQuietHours cfg now = false →
      HandleDecisionEvent cfg send now st (EventValue.decision d)
        = match formatDecisionMessage d with
          | none => none
          | some message =>
              match send message with
              | Except.error e =>
                  some { result := Except.error ("failed to send telegram message: " ++ e)
                         cooldowns := st, sent := [message] }
              | Except.ok _ =>
                  some { result := Except.ok ()
                         cooldowns := setCooldown st d.Data.Symbol now
                         sent := [message] }) := by
  refine ⟨fun h1 => ?_, fun h1 h2 => ?_, fun h1 h2 h3 => ?_, fun h1 h2 h3 h4 => ?_,
    fun h1 h2 h3 h4 => ?_⟩
  · simp [HandleDecisionEvent, h1]
  · simp [HandleDecisionEvent, h1, h2]
  · simp [HandleDecisionEvent, h1, h2, h3]
  · simp [HandleDecisionEvent, h1, h2, h3, h4]
  · simp [HandleDecisionEvent, h1, h2, h3, h4]

theorem HandleDecisionEvent_gate_order_witness :
    shouldAlertForSignal cfgW dW.Data.Signal = true
    ∧ ¬ dW.Data.Confidence < cfgW.MinConfidence
    ∧ checkCooldown cfgW [] timeW dW.Data.Symbol = true
    ∧ isQuietHours cfgW timeW = false
    ∧ HandleDecisionEvent cfgW sendOkW timeW [] (EventValue.decision dW)
        = match formatDecisionMessage dW with
          | none => none
          | some message =>
              match sendOkW message with
              | Except.error e =>
                  some { result := Except.error ("failed to send telegram message: " ++ e)
                         cooldowns := [], sent := [message] }
              | Except.ok _ =>
                  some { result := Except.ok ()
                         cooldowns := setCooldown [] dW.Data.Symbol timeW
                         sent := [message] } :=
  ⟨by decide, by decide, by decide, by decide,
    (HandleDecisionEvent_gate_order cfgW sendOkW timeW [] dW).2.2.2.2
      (by decide) (by decide) (by decide) (by decide)⟩

/-! ### C1: cooldown versus send outcome (corrected) -/

/-- The message `formatDecisionMessage` renders for `dW`. -/
def msgW : String :=
  "🟢 <b>BUY Signal: AAPL</b>\n\n📊 Confidence: 80% ████████░░\n\n💡 <b>Reason:</b>\nStrong setup\n\n📋 <b>Rules Triggered:</b>\n  • RSI_OVERSOLD (70%)\n\n📈 <b>Key Indicators:</b>\n  • RSI: 27.30\n\n🕐 2023-11-14 12:13:20 UTC"

/-- C1 counterexample: a decision event that passes every gate, whose send
fails (`sendFailW`), after which the handler returns the wrapped error, the
sink was invoked exactly once, and the cooldown map still has NO entry for
the symbol — a failed send does not use up the cooldown window. -/
theorem HandleDecisionEvent_failed_send_leaves_cooldown_unset :
    (HandleDecisionEvent cfgW sendFailW timeW [] (EventValue.decision dW)).map
        (fun o => (mapLookup o.cooldowns "AAPL", o.sent.length,
                   match o.result with | Except.ok _ => true | Except.error _ => false))
      = some (none, 1, false) := by decide

/-- C1 amended: when every gate passes and the sink's send fails,
`HandleDecisionEvent` returns the wrapped send error and leaves the cooldown
map unchanged — the cooldown is recorded only after a successful send. -/
theorem HandleDecisionEvent_cooldown_only_on_send_success (cfg : Config)
    (send : String → Except String Unit) (now : GoTime)
    (st : List (String × GoTime)) (d : DecisionEvent) (message e : String)
    (h1 : shouldAlertForSignal cfg d.Data.Signal = true)
    (h2 : ¬ d.Data.Confidence < cfg.MinConfidence)
    (h3 : checkCooldown cfg st now d.Data.Symbol = true)
    (h4 : isQuietHours cfg now = false)
    (hm : formatDecisionMessage d = some message)
    (hs : send message = Except.error e) :
    HandleDecisionEvent cfg send now st (EventValue.decision d)
      = some { result := Except.error ("failed to send telegram message: " ++ e)
               cooldowns := st, sent := [message] } := by
  simp [HandleDecisionEvent, h1, h2, h3, h4, hm, hs]

set_option maxRecDepth 4000 in
theorem HandleDecisionEvent_cooldown_only_on_send_success_witness :
    shouldAlertForSignal cfgW dW.Data.Signal = true
    ∧ ¬ dW.Data.Confidence < cfgW.MinConfidence
    ∧ checkCooldown cfgW [] timeW dW.Data.Symbol = true
    ∧ isQuietHours cfgW timeW = false
    ∧ formatDecisionMessage dW = some msgW
    ∧ sendFailW msgW = Except.error "boom"
    ∧ HandleDecisionEvent cfgW sendFailW timeW [] (EventValue.decision dW)
        = some { result := Except.error ("failed to send telegram message: " ++ "boom")
                 cooldowns := [], sent := [msgW] } :=
  ⟨by decide, by decide, by decide, by decide, by decide, by decide,
    HandleDecisionEvent_cooldown_only_on_send_success cfgW sendFailW timeW [] dW msgW "boom"
      (by decide) (by decide) (by decide) (by decide) (by decide) (by decide)⟩

/-! ### C9: ranking handler frame conditions -/

/-- C9: `HandleRankingEvent` never writes the cooldown map, its observable
behaviour is independent of the cooldown map, and it is gated only by the
ranking-enabled flag and the quiet-hours predicate, with no confidence or
cooldown check applied. -/
theorem HandleRankingEvent_frame (cfg : Config) (send : String → Except String Unit)
    (now : GoTime) (st st' : List (String × GoTime)) (r : RankingEvent) :
    ((HandleRankingEvent cfg send now st (EventValue.ranking r)).cooldowns = st)
    ∧ ((HandleRankingEvent cfg send now st (EventValue.ranking r)).result
        = (HandleRankingEvent cfg send now st' (EventValue.ranking r)).result)
    ∧ ((HandleRankingEvent cfg send now st (EventValue.ranking r)).sent
        = (HandleRankingEvent cfg send now st' (EventValue.ranking r)).sent)
    ∧ (cfg.AlertOnRankings = false →
        HandleRankingEvent cfg send now st (EventValue.ranking r)
          = { result := Except.ok (), cooldowns := st, sent := [] })
    ∧ (cfg.AlertOnRankings = true → isQuietHours cfg now = true →
        HandleRankingEvent cfg send now st (EventValue.ranking r)
          = { result := Except.ok (), cooldowns := st, sent := [] })
    ∧ (cfg.AlertOnRankings = true → isQuietHours cfg now = false →
        HandleRankingEvent cfg send now st (EventValue.ranking r)
          = match send (formatRankingMessage cfg r) with
            | Except.error e =>
                { result := Except.error ("failed to send telegram ranking message: " ++ e)
                  cooldowns := st, sent := [formatRankingMessage cfg r] }
            | Except.ok _ =>
                { result := Except.ok (), cooldowns := st
                  sent := [formatRankingMessage cfg r] }) := by
  refine ⟨?_, ?_, ?_, fun hA => by simp [HandleRankingEvent, hA], fun hA hQ => ?_,
    fun hA hQ => ?_⟩
  · cases hA : cfg.AlertOnRankings <;>
      cases hQ : isQuietHours cfg now <;>
      cases hS : send (formatRankingMessage cfg r) <;>
      simp [HandleRankingEvent, hA, hQ, hS]
  · cases hA : cfg.AlertOnRankings <;>
      cases hQ : isQuietHours cfg now <;>
      cases hS : send (formatRankingMessage cfg r) <;>
      simp [HandleRankingEvent, hA, hQ, hS]
  · cases hA : cfg.AlertOnRankings <;>
      cases hQ : isQuietHours cfg now <;>
      cases hS : send (formatRankingMessage cfg r) <;>
      simp [HandleRankingEvent, hA, hQ, hS]
  · simp [HandleRankingEvent, hA, hQ]
  · cases hS : send (formatRankingMessage cfg r) <;>
      simp [HandleRankingEvent, hA, hQ, hS]

/-- The ranking-disabled configuration used by the C9 witness. -/
def cfgNoRankW : Config :=
  { cfgW with AlertOnRankings := false }

/-- A 150-character reasoning string (exercises the 100-byte truncation). -/
def longReasoningW : String :=
  "This reasoning string is exactly one hundred and fifty characters long so that the renderer must truncate it to ninety-seven characters plus dots....."

/-- A ranking event with four entries, the fourth carrying a 150-character
reasoning string. -/
def rW : RankingEvent :=
  { EventType := "ranking_update", Source := "decision-engine", SchemaVersion := "1.0"
    Timestamp := timeW
    Data := { SignalType := "BUY", Criteria := "composite_score", Timestamp := timeW
              TotalSymbols := 42
              Rankings :=
                [{ Symbol := "AAPL", Rank := 1, Score := mkRat 921 100, SignalType := "BUY"
                   Confidence := mkRat 9 10, Reasoning := "Momentum", RankingFactors := [] },
                 { Symbol := "MSFT", Rank := 2, Score := mkRat 87 10, SignalType := "BUY"
                   Confidence := mkRat 4 5, Reasoning := "", RankingFactors := [] },
                 { Symbol := "NVDA", Rank := 3, Score := mkRat 81 10, SignalType := "BUY"
                   Confidence := mkRat 3 4, Reasoning := "Breakout", RankingFactors := [] },
                 { Symbol := "SLV", Rank := 4, Score := mkRat 15 2, SignalType := "BUY"
                   Confidence := mkRat 7 10, Reasoning := longReasoningW
                   RankingFactors := [] }] } }

theorem HandleRankingEvent_frame_witness :
    cfgNoRankW.AlertOnRankings = false
    ∧ HandleRankingEvent cfgNoRankW sendOkW timeW [] (EventValue.ranking rW)
        = { result := Except.ok (), cooldowns := [], sent := [] } :=
  ⟨by decide,
    (HandleRankingEvent_frame cfgNoRankW sendOkW timeW [] [] rW).2.2.2.1 (by decide)⟩

/-! ### C6: renderer determinism versus Go map iteration (code bug) -/

/-- `dW` with a two-entry indicator snapshot in one iteration order. -/
def dIndAB : DecisionEvent :=
  { dW with Data := { dW.Data with
      IndicatorsSnapshot := [("macd", mkRat 1 1), ("rsi", mkRat 2 1)] } }

/-- `dW` with the same two-entry indicator snapshot in the other iteration
order. -/
def dIndBA : DecisionEvent :=
  { dW with Data := { dW.Data with
      IndicatorsSnapshot := [("rsi", mkRat 2 1), ("macd", mkRat 1 1)] } }

set_option maxRecDepth 4000 in
/-- C6 (refuting evaluation): the two orders in which Go's randomized map
iteration can enumerate the same two-entry `indicators_snapshot` — the two
lists are permutations of each other with pairwise-distinct keys, hence the
same map — yield different rendered texts, so two runs of
`formatDecisionMessage` on the identical event need not agree. -/
theorem formatDecisionMessage_depends_on_indicator_order :
    List.Perm dIndAB.Data.IndicatorsSnapshot dIndBA.Data.IndicatorsSnapshot
    ∧ (dIndAB.Data.IndicatorsSnapshot.map Prod.fst).Nodup
    ∧ formatDecisionMessage dIndAB ≠ formatDecisionMessage dIndBA := by
  refine ⟨by decide, by decide, by decide⟩

/-! ### C7: confidence bar in range -/

theorem repeatString_data (c : Char) (s : String) (hs : s.data = [c]) (n : Nat) :
    (repeatString s n).data = List.replicate n c := by
  induction n with
  | zero => rfl
  | succ n ih =>
      show (s ++ repeatString s n).data = _
      rw [String.data_append, hs, ih, List.replicate_succ]
      rfl

theorem goRepeat_nonneg (s : String) (n : Int) (h : 0 ≤ n) :
    goRepeat s n = some (repeatString s n.toNat) := by
  simp [goRepeat, not_lt.mpr h]

theorem goRepeat_neg (s : String) (n : Int) (h : n < 0) : goRepeat s n = none := by
  simp [goRepeat, h]

/-- For a nonnegative rational, Go's truncating conversion of `c * 10` agrees
with the mathematical floor. -/
theorem goTrunc10_eq_floor (c : ℚ) (h : 0 ≤ c) : goTrunc10 c = ⌊(c * 10 : ℚ)⌋ := by
  have hnum : 0 ≤ c.num := Rat.num_nonneg.mpr h
  have hden : 0 < (c.den : Int) := by exact_mod_cast c.den_pos
  rw [goTrunc10, Int.tdiv_eq_ediv (by omega) (le_of_lt hden),
    ← Rat.floor_intCast_div_natCast (10 * c.num) c.den]
  congr 1
  have hd : ((c.den : ℚ)) ≠ 0 := by
    exact_mod_cast Nat.pos_iff_ne_zero.mp c.den_pos
  calc ((10 * c.num : Int) : ℚ) / ((c.den : Nat) : ℚ)
      = 10 * ((c.num : ℚ) / (c.den : ℚ)) := by push_cast; ring
    _ = 10 * c := by rw [Rat.num_div_den]
    _ = c * 10 := mul_comm _ _

/-- C7: for `0 ≤ c ≤ 1` the bar renders without panic as exactly 10
segments: the first `⌊c·10⌋` filled and the remaining `10 - ⌊c·10⌋` empty. -/
theorem formatConfidenceBar_in_range (c : ℚ) (h0 : 0 ≤ c) (h1 : c ≤ 1) :
    ∃ s, formatConfidenceBar c = some s
      ∧ s.data = List.replicate (⌊(c * 10 : ℚ)⌋).toNat '█'
                  ++ List.replicate (10 - (⌊(c * 10 : ℚ)⌋).toNat) '░'
      ∧ s.length = 10 := by
  have hfl := goTrunc10_eq_floor c h0
  have hge : 0 ≤ ⌊(c * 10 : ℚ)⌋ := Int.floor_nonneg.mpr (by positivity)
  have hle : ⌊(c * 10 : ℚ)⌋ ≤ 10 := by
    have h10 : (c * 10 : ℚ) ≤ 10 := by nlinarith
    calc ⌊(c * 10 : ℚ)⌋ ≤ ⌊(10 : ℚ)⌋ := Int.floor_mono h10
      _ = 10 := by norm_num
  have hnn : ((10 : Int) - ⌊(c * 10 : ℚ)⌋).toNat = 10 - (⌊(c * 10 : ℚ)⌋).toNat := by
    omega
  refine ⟨repeatString "█" (⌊(c * 10 : ℚ)⌋).toNat
      ++ repeatString "░" ((10 - ⌊(c * 10 : ℚ)⌋ : Int)).toNat, ?_, ?_, ?_⟩
  · show (match goRepeat "█" (goTrunc10 c), goRepeat "░" (10 - goTrunc10 c) with
      | some a, some b => some (a ++ b)
      | _, _ => none) = _
    rw [hfl, goRepeat_nonneg _ _ hge, goRepeat_nonneg _ _ (by omega)]
  · rw [String.data_append, repeatString_data '█' _ rfl, repeatString_data '░' _ rfl, hnn]
  · have hlen : (repeatString "█" (⌊(c * 10 : ℚ)⌋).toNat
        ++ repeatString "░" ((10 - ⌊(c * 10 : ℚ)⌋ : Int)).toNat).length
        = (repeatString "█" (⌊(c * 10 : ℚ)⌋).toNat
        ++ repeatString "░" ((10 - ⌊(c * 10 : ℚ)⌋ : Int)).toNat).data.length := rfl
    rw [hlen, String.data_append, repeatString_data '█' _ rfl, repeatString_data '░' _ rfl]
    simp only [List.length_append, List.length_replicate]
    omega

theorem formatConfidenceBar_in_range_witness :
    0 ≤ mkRat 4 5 ∧ mkRat 4 5 ≤ 1
    ∧ (∃ s, formatConfidenceBar (mkRat 4 5) = some s
        ∧ s.data = List.replicate (⌊((mkRat 4 5) * 10 : ℚ)⌋).toNat '█'
                    ++ List.replicate (10 - (⌊((mkRat 4 5) * 10 : ℚ)⌋).toNat) '░'
        ∧ s.length = 10) :=
  ⟨by decide, by decide, formatConfidenceBar_in_range (mkRat 4 5) (by decide) (by decide)⟩

/-! ### C10: out-of-range confidence panics (corrected) -/

/-- C10 counterexample to the claim's "any negative confidence" example: the
negative confidence −1/25 (= −0.04) truncates to 0, both repeat counts are
nonnegative, and the bar renders as ten empty segments instead of
panicking. -/
theorem formatConfidenceBar_small_negative_no_panic :
    mkRat (-1) 25 < 0
    ∧ formatConfidenceBar (mkRat (-1) 25) = some "░░░░░░░░░░" := by
  refine ⟨by decide, by decide⟩

/-- C10 amended: whenever `int(c*10)` lies outside `0..10` (for example
`c = 1.2`, or any `c ≤ -0.1`) one of the two repeat counts is negative and
`formatConfidenceBar` panics; within `0..10` it is total; and since the
decision gates bound confidence only from below, an event with such a
confidence that passes every gate drives `HandleDecisionEvent` into the
panic. -/
theorem formatConfidenceBar_out_of_range_panics (c : ℚ) (cfg : Config)
    (send : String → Except String Unit) (now : GoTime)
    (st : List (String × GoTime)) (d : DecisionEvent) :
    ((0 ≤ goTrunc10 c ∧ goTrunc10 c ≤ 10) → ∃ s, formatConfidenceBar c = some s)
    ∧ ((10 < goTrunc10 c ∨ goTrunc10 c < 0) → formatConfidenceBar c = none)
    ∧ ((10 < goTrunc10 c ∨ goTrunc10 c < 0) →
       d.Data.Confidence = c →
       shouldAlertForSignal cfg d.Data.Signal = true →
       ¬ d.Data.Confidence < cfg.MinConfidence →
       checkCooldown cfg st now d.Data.Symbol = true →
       isQuietHours cfg now = false →
       HandleDecisionEvent cfg send now st (EventValue.decision d) = none) := by
  have hnone : (10 < goTrunc10 c ∨ goTrunc10 c < 0) → formatConfidenceBar c = none := by
    rintro (h | h)
    · show (match goRepeat "█" (goTrunc10 c), goRepeat "░" (10 - goTrunc10 c) with
        | some a, some b => some (a ++ b)
        | _, _ => none) = none
      rw [goRepeat_nonneg _ _ (by omega), goRepeat_neg _ _ (by omega)]
    · show (match goRepeat "█" (goTrunc10 c), goRepeat "░" (10 - goTrunc10 c) with
        | some a, some b => some (a ++ b)
        | _, _ => none) = none
      rw [goRepeat_neg _ _ h]
  refine ⟨fun ⟨hge, hle⟩ => ?_, hnone, fun hr hc h1 h2 h3 h4 => ?_⟩
  · refine ⟨repeatString "█" (goTrunc10 c).toNat
        ++ repeatString "░" (10 - goTrunc10 c).toNat, ?_⟩
    show (match goRepeat "█" (goTrunc10 c), goRepeat "░" (10 - goTrunc10 c) with
      | some a, some b => some (a ++ b)
      | _, _ => none) = _
    rw [goRepeat_nonneg _ _ hge, goRepeat_nonneg _ _ (by omega)]
  · have hmsg : formatDecisionMessage d = none := by
      have hbar : formatConfidenceBar d.Data.Confidence = none := by
        rw [hc]; exact hnone hr
      simp [formatDecisionMessage, hbar]
    simp [HandleDecisionEvent, h1, h2, h3, h4, hmsg]

/-- `dW` with the out-of-range confidence 1.2. -/
def dHighW : DecisionEvent :=
  { dW with Data := { dW.Data with Confidence := mkRat 6 5 } }

theorem formatConfidenceBar_out_of_range_panics_witness :
    (10 < goTrunc10 (mkRat 6 5) ∨ goTrunc10 (mkRat 6 5) < 0)
    ∧ dHighW.Data.Confidence = mkRat 6 5
    ∧ shouldAlertForSignal cfgW dHighW.Data.Signal = true
    ∧ ¬ dHighW.Data.Confidence < cfgW.MinConfidence
    ∧ checkCooldown cfgW [] timeW dHighW.Data.Symbol = true
    ∧ isQuietHours cfgW timeW = false
    ∧ HandleDecisionEvent cfgW sendOkW timeW [] (EventValue.decision dHighW) = none :=
  ⟨by decide, by decide, by decide, by decide, by decide, by decide,
    (formatConfidenceBar_out_of_range_panics (mkRat 6 5) cfgW sendOkW timeW [] dHighW).2.2
      (by decide) (by decide) (by decide) (by decide) (by decide) (by decide)⟩

/-! ### C5: claim processing commits each message exactly once -/

/-- The message position an observable trace event refers to. -/
def TraceEv.idx : TraceEv → Nat
  | TraceEv.deliver i => i
  | TraceEv.dispatch i _ => i
  | TraceEv.commit i => i

/-- One loop iteration: a delivery, at most one handler dispatch, the single
commit for that message, then the rest of the loop. -/
theorem ConsumeClaim_cons (h : ConsumerHandlers) (i : Nat) (m : KMessage)
    (rest : List KMessage) :
    ∃ dp : List TraceEv,
      ConsumeClaim h i (m :: rest)
        = TraceEv.deliver i :: (dp ++ TraceEv.commit i :: ConsumeClaim h (i + 1) rest)
      ∧ (dp = [] ∨ ∃ b, dp = [TraceEv.dispatch i b]) := by
  simp only [ConsumeClaim]
  repeat' split
  all_goals
    first
      | exact ⟨[], rfl, Or.inl rfl⟩
      | exact ⟨[TraceEv.dispatch i true], rfl, Or.inr ⟨true, rfl⟩⟩
      | exact ⟨[TraceEv.dispatch i false], rfl, Or.inr ⟨false, rfl⟩⟩

/-- Every event emitted by the loop started at position `i` refers to a
position at least `i`. -/
theorem ConsumeClaim_idx_ge (h : ConsumerHandlers) :
    ∀ (msgs : List KMessage) (i : Nat) (e : TraceEv),
      e ∈ ConsumeClaim h i msgs → i ≤ e.idx := by
  intro msgs
  induction msgs with
  | nil => intro i e he; simp [ConsumeClaim] at he
  | cons m rest ih =>
      intro i e he
      obtain ⟨dp, heq, hdp⟩ := ConsumeClaim_cons h i m rest
      rw [heq] at he
      rcases List.mem_cons.mp he with rfl | he'
      · simp [TraceEv.idx]
      · rcases List.mem_append.mp he' with hin | hin
        · rcases hdp with rfl | ⟨b, rfl⟩
          · simp at hin
          · rw [List.mem_singleton.mp hin]
            simp [TraceEv.idx]
        · rcases List.mem_cons.mp hin with rfl | hrec
          · simp [TraceEv.idx]
          · have := ih (i + 1) e hrec
            omega

/-- Generalized form of C5 over the starting position. -/
theorem ConsumeClaim_commit_split (h : ConsumerHandlers) :
    ∀ (msgs : List KMessage) (i j : Nat), i ≤ j → j < i + msgs.length →
      ∃ pre post,
        ConsumeClaim h i msgs = pre ++ TraceEv.commit j :: post
        ∧ TraceEv.deliver j ∈ pre
        ∧ TraceEv.commit j ∉ pre
        ∧ TraceEv.commit j ∉ post
        ∧ ∀ b, TraceEv.dispatch j b ∉ post := by
  intro msgs
  induction msgs with
  | nil =>
      intro i j hij hlt
      exact absurd hlt (by simp only [List.length_nil]; omega)
  | cons m rest ih =>
      intro i j hij hlt
      obtain ⟨dp, heq, hdp⟩ := ConsumeClaim_cons h i m rest
      by_cases hji : j = i
      · subst hji
        refine ⟨TraceEv.deliver j :: dp, ConsumeClaim h (j + 1) rest, ?_, ?_, ?_, ?_, ?_⟩
        · rw [heq]; simp
        · exact List.mem_cons_self _ _
        · intro hmem
          rcases hdp with rfl | ⟨b, rfl⟩ <;> simp at hmem
        · intro hmem
          have := ConsumeClaim_idx_ge h rest (j + 1) _ hmem
          simp [TraceEv.idx] at this
        · intro b hmem
          have := ConsumeClaim_idx_ge h rest (j + 1) _ hmem
          simp [TraceEv.idx] at this
      · have hij' : i + 1 ≤ j := by omega
        have hlt' : j < (i + 1) + rest.length := by
          simp only [List.length_cons] at hlt; omega
        obtain ⟨pre, post, heq', hdel, hpre, hpost, hdisp⟩ := ih (i + 1) j hij' hlt'
        refine ⟨TraceEv.deliver i :: (dp ++ TraceEv.commit i :: pre), post, ?_, ?_, ?_,
          hpost, hdisp⟩
        · rw [heq, heq']; simp
        · simp [hdel]
        · intro hmem
          rcases List.mem_cons.mp hmem with he | he
          · simp at he
          · rcases List.mem_append.mp he with hin | hin
            · rcases hdp with rfl | ⟨b, rfl⟩ <;> simp at hin
            · rcases List.mem_cons.mp hin with he2 | he2
              · rw [TraceEv.commit.injEq] at he2
                exact hji he2
              · exact hpre he2

/-- C5: for any sequence of delivered messages — valid, malformed, or with a
failing handler — the claim loop emits exactly one commit for every message
position, that commit comes after the message's delivery and after any
handler dispatch for it, and every message of the sequence is processed (no
deserialization failure or handler error terminates the loop early). -/
theorem ConsumeClaim_marks_each_message_once (h : ConsumerHandlers)
    (msgs : List KMessage) (j : Nat) (hj : j < msgs.length) :
    ∃ pre post,
      ConsumeClaim h 0 msgs = pre ++ TraceEv.commit j :: post
      ∧ TraceEv.deliver j ∈ pre
      ∧ TraceEv.commit j ∉ pre
      ∧ TraceEv.commit j ∉ post
      ∧ ∀ b, TraceEv.dispatch j b ∉ post :=
  ConsumeClaim_commit_split h msgs 0 j (Nat.zero_le j) (by omega)

/-- The consumer wiring used by the C5 witness: a decision handler that
always fails and a ranking handler that always succeeds. -/
def consumerW : ConsumerHandlers :=
  { decisionTopic := "trading.decisions", rankingTopic := "trading.rankings"
    decisionHandler := some (fun _ => Except.error "handler failure")
    rankingHandler := some (fun _ => Except.ok ()) }

/-- Three delivered messages: a valid decision event whose handler fails, a
malformed decision payload, and a valid ranking event. -/
def msgsW : List KMessage :=
  [{ topic := "trading.decisions", valueAsDecision := some dW, valueAsRanking := none },
   { topic := "trading.decisions", valueAsDecision := none, valueAsRanking := none },
   { topic := "trading.rankings", valueAsDecision := none, valueAsRanking := some rW }]

theorem ConsumeClaim_marks_each_message_once_witness :
    1 < msgsW.length
    ∧ ∃ pre post,
        ConsumeClaim consumerW 0 msgsW = pre ++ TraceEv.commit 1 :: post
        ∧ TraceEv.deliver 1 ∈ pre
        ∧ TraceEv.commit 1 ∉ pre
        ∧ TraceEv.commit 1 ∉ post
        ∧ ∀ b, TraceEv.dispatch 1 b ∉ post :=
  ⟨by decide, ConsumeClaim_marks_each_message_once consumerW msgsW 1 (by decide)⟩

/-! ### C8: ranking message layout -/

/-- Indexing `List.range` into a list through `getD` is `mapIdx` over the
prefix, provided the bound stays within the list. -/
theorem range_map_getD_eq_mapIdx_take {α β : Type _} (dflt : α) :
    ∀ (l : List α) (f : Nat → α → β) (n : Nat), n ≤ l.length →
      (List.range n).map (fun i => f i (l.getD i dflt)) = (l.take n).mapIdx f := by
  intro l
  induction l with
  | nil =>
      intro f n hn
      have h0 : n = 0 := Nat.le_zero.mp (by simpa using hn)
      subst h0
      simp
  | cons a l ih =>
      intro f n hn
      cases n with
      | zero => simp
      | succ n =>
          rw [List.range_succ_eq_map, List.map_cons, List.map_map,
            List.take_succ_cons, List.mapIdx_cons]
          congr 1
          have hn' : n ≤ l.length := by simpa using hn
          rw [← ih (fun i x => f (i + 1) x) n hn']
          apply List.map_congr_left
          intro i _
          rfl

/-- C8: with a nonnegative configured top-N, the rendered ranking message is
a header, then exactly `min(RankingsTopN, len(rankings))` entry blocks taken
as a prefix of the rankings in their given order, where positions 1–3 carry
the three fixed medal markers and later positions the numeric marker `N.`
(1-based), each reasoning string is kept verbatim at length ≤ 100 and
truncated to its first 97 characters plus a marker when longer, and the
message ends with the total-symbols-analyzed count. -/
theorem formatRankingMessage_spec (cfg : Config) (event : RankingEvent)
    (htop : 0 ≤ cfg.RankingsTopN) :
    ∃ header,
      formatRankingMessage cfg event
        = header
          ++ String.join
              ((event.Data.Rankings.take
                  (min cfg.RankingsTopN.toNat event.Data.Rankings.length)).mapIdx
                (fun i r =>
                  (if i = 0 then "🥇"
                   else if i = 1 then "🥈"
                   else if i = 2 then "🥉"
                   else toString (i + 1) ++ ".")
                  ++ " <b>" ++ r.Symbol ++ "</b> - Score: " ++ fmtF2 r.Score
                  ++ " (" ++ fmtConfidencePct r.Confidence ++ "% confidence)\n"
                  ++ (if r.Reasoning ≠ "" then
                        "    └ " ++ (if r.Reasoning.length > 100 then r.Reasoning.take 97 ++ "..."
                                     else r.Reasoning) ++ "\n"
                      else "")
                  ++ "\n"))
          ++ ("📊 Total symbols analyzed: " ++ toString event.Data.TotalSymbols) := by
  have hcount : (if cfg.RankingsTopN > (event.Data.Rankings.length : Int)
      then (event.Data.Rankings.length : Int) else cfg.RankingsTopN).toNat
      = min cfg.RankingsTopN.toNat event.Data.Rankings.length := by
    split_ifs with hgt
    · omega
    · omega
  have hbody :
      (List.range (min cfg.RankingsTopN.toNat event.Data.Rankings.length)).map
        (fun i =>
          (if i = 0 then "🥇"
           else if i = 1 then "🥈"
           else if i = 2 then "🥉"
           else toString (i + 1) ++ ".")
          ++ " <b>" ++ (event.Data.Rankings.getD i defaultSymbolRanking).Symbol
          ++ "</b> - Score: " ++ fmtF2 (event.Data.Rankings.getD i defaultSymbolRanking).Score
          ++ " (" ++ fmtConfidencePct (event.Data.Rankings.getD i defaultSymbolRanking).Confidence
          ++ "% confidence)\n"
          ++ (if (event.Data.Rankings.getD i defaultSymbolRanking).Reasoning ≠ "" then
                "    └ "
                ++ (if (event.Data.Rankings.getD i defaultSymbolRanking).Reasoning.length > 100
                    then (event.Data.Rankings.getD i defaultSymbolRanking).Reasoning.take 97 ++ "..."
                    else (event.Data.Rankings.getD i defaultSymbolRanking).Reasoning) ++ "\n"
              else "")
          ++ "\n")
      = (event.Data.Rankings.take
          (min cfg.RankingsTopN.toNat event.Data.Rankings.length)).mapIdx
          (fun i r =>
            (if i = 0 then "🥇"
             else if i = 1 then "🥈"
             else if i = 2 then "🥉"
             else toString (i + 1) ++ ".")
            ++ " <b>" ++ r.Symbol ++ "</b> - Score: " ++ fmtF2 r.Score
            ++ " (" ++ fmtConfidencePct r.Confidence ++ "% confidence)\n"
            ++ (if r.Reasoning ≠ "" then
                  "    └ " ++ (if r.Reasoning.length > 100 then r.Reasoning.take 97 ++ "..."
                               else r.Reasoning) ++ "\n"
                else "")
            ++ "\n") :=
    range_map_getD_eq_mapIdx_take defaultSymbolRanking event.Data.Rankings
      (fun i r =>
        (if i = 0 then "🥇"
         else if i = 1 then "🥈"
         else if i = 2 then "🥉"
         else toString (i + 1) ++ ".")
        ++ " <b>" ++ r.Symbol ++ "</b> - Score: " ++ fmtF2 r.Score
        ++ " (" ++ fmtConfidencePct r.Confidence ++ "% confidence)\n"
        ++ (if r.Reasoning ≠ "" then
              "    └ " ++ (if r.Reasoning.length > 100 then r.Reasoning.take 97 ++ "..."
                           else r.Reasoning) ++ "\n"
            else "")
        ++ "\n")
      (min cfg.RankingsTopN.toNat event.Data.Rankings.length)
      (Nat.min_le_right _ _)
  refine ⟨(if event.Data.SignalType = SignalBuy then "🟢"
      else if event.Data.SignalType = SignalSell then "🔴" else "")
      ++ " <b>" ++ event.Data.SignalType ++ " Rankings Update</b>\n"
      ++ "📅 " ++ formatTimeShort event.Data.Timestamp ++ "\n\n"
      ++ "<b>Top "
      ++ toString (if cfg.RankingsTopN > (event.Data.Rankings.length : Int)
                   then (event.Data.Rankings.length : Int) else cfg.RankingsTopN)
      ++ " " ++ event.Data.SignalType ++ " Candidates:</b>\n\n", ?_⟩
  simp only [formatRankingMessage]
  rw [hcount, hbody]
  simp only [String.append_assoc]

theorem formatRankingMessage_spec_witness :
    0 ≤ cfgW.RankingsTopN
    ∧ ∃ header,
        formatRankingMessage cfgW rW
          = header
            ++ String.join
                ((rW.Data.Rankings.take
                    (min cfgW.RankingsTopN.toNat rW.Data.Rankings.length)).mapIdx
                  (fun i r =>
                    (if i = 0 then "🥇"
                     else if i = 1 then "🥈"
                     else if i = 2 then "🥉"
                     else toString (i + 1) ++ ".")
                    ++ " <b>" ++ r.Symbol ++ "</b> - Score: " ++ fmtF2 r.Score
                    ++ " (" ++ fmtConfidencePct r.Confidence ++ "% confidence)\n"
                    ++ (if r.Reasoning ≠ "" then
                          "    └ " ++ (if r.Reasoning.length > 100 then r.Reasoning.take 97 ++ "..."
                                       else r.Reasoning) ++ "\n"
                        else "")
                    ++ "\n"))
            ++ ("📊 Total symbols analyzed: " ++ toString rW.Data.TotalSymbols) :=
  ⟨by decide, formatRankingMessage_spec cfgW rW (by decide)⟩
